import Mathlib

/-!
Verification development for the `weather` repository (`src/weather.py`).

Shallow embedding conventions:

* Python `float` values are modelled as exact rationals (`ℚ`) in the
  computable parts of the code, and as real numbers (`ℝ`) in the
  trigonometric haversine part.
* Python `None` is modelled as `Option.none`; a JSON field that is missing
  or `null` is modelled as `none` as well, wherever the source treats the
  two alike.
* A Python function that can raise an uncaught exception is modelled with
  an `Except` result, the `error` constructor standing for the raised
  exception.
* Python `round(x, 2)` uses round-half-to-even on the scaled value; this is
  `roundTo2` below.
-/

/-- Round-half-to-even of a rational to an integer, the tie-breaking rule of
Python's builtin `round`. -/
def roundHalfEven (q : ℚ) : ℤ :=
  let f := ⌊q⌋
  let r := q - (f : ℚ)
  if r < 1/2 then f
  else if 1/2 < r then f + 1
  else if f % 2 = 0 then f else f + 1

/-- Model of Python `round(q, 2)`: round-half-even at two decimal places. -/
def roundTo2 (q : ℚ) : ℚ :=
  (roundHalfEven (q * 100) : ℚ) / 100

/-- Embedding of `convert_kmh_to_mph` (src/weather.py):
`if kmh is None: return None` / `return round(kmh * 0.621371, 2)`. -/
def convert_kmh_to_mph (kmh : Option ℚ) : Option ℚ :=
  match kmh with
  | none => none
  | some v => some (roundTo2 (v * (621371 / 1000000)))

/-- The `value`/`unitCode` projection of a temperature (or wind) dictionary.
A missing key and a JSON `null` are both modelled as `none`; extra keys of
the Python dictionary (e.g. `qualityControl`) are not modelled. -/
structure TempData where
  value : Option ℚ
  unitCode : Option String
  deriving DecidableEq, Repr

/-- Body of `convert_temperature` on an actual dictionary argument: the
condition `celsius_temperature_data and .get('value') is not None` reduces to
`value` being present (an empty dictionary has no `value` key). -/
def convert_temperature_rec (d : TempData) : TempData :=
  match d.value with
  | some v => { value := some (roundTo2 (v * 9 / 5 + 32)), unitCode := some "F" }
  | none => { value := none, unitCode := some "" }

/-- Embedding of `convert_temperature` (src/weather.py).  When the argument
is Python `None`, the degradation branch executes
`celsius_temperature_data['value'] = None`, which raises `TypeError`
(`NoneType` does not support item assignment); this is the `error` case. -/
def convert_temperature (celsius_temperature_data : Option TempData) :
    Except String TempData :=
  match celsius_temperature_data with
  | none => Except.error "TypeError"
  | some d => Except.ok (convert_temperature_rec d)

/-- Claim C5: `convert_temperature` maps a record with a present `value` to
`round(value * 9/5 + 32, 2)` with unit `"F"`; with `value` absent (including
the empty record, modelled as both fields `none`) it yields
`{value: absent, unitCode: ""}` without error; in particular 0 ↦ 32 and
100 ↦ 212. -/
theorem C5_convert_temperature_spec :
    (∀ (v : ℚ) (u : Option String),
      convert_temperature (some ⟨some v, u⟩) =
        Except.ok ⟨some (roundTo2 (v * 9 / 5 + 32)), some "F"⟩)
    ∧ (∀ u : Option String,
      convert_temperature (some ⟨none, u⟩) = Except.ok ⟨none, some ""⟩)
    ∧ convert_temperature (some ⟨some 0, some "C"⟩) = Except.ok ⟨some 32, some "F"⟩
    ∧ convert_temperature (some ⟨some 100, some "C"⟩) = Except.ok ⟨some 212, some "F"⟩
    ∧ convert_temperature (some ⟨none, none⟩) = Except.ok ⟨none, some ""⟩ := by
  refine ⟨fun v u => rfl, fun u => rfl, ?_, ?_, rfl⟩ <;>
    simp only [convert_temperature, convert_temperature_rec] <;>
    norm_num [roundTo2, roundHalfEven]

/-- Claim C6: `convert_kmh_to_mph` returns `none` on `none` and otherwise
`round(kmh * 0.621371, 2)`; in particular 0 ↦ 0.0, 100 ↦ 62.14,
50.5 ↦ 31.38. -/
theorem C6_convert_kmh_to_mph_spec :
    convert_kmh_to_mph none = none
    ∧ (∀ v : ℚ, convert_kmh_to_mph (some v) = some (roundTo2 (v * (621371 / 1000000))))
    ∧ convert_kmh_to_mph (some 0) = some 0
    ∧ convert_kmh_to_mph (some 100) = some (6214 / 100)
    ∧ convert_kmh_to_mph (some (505 / 10)) = some (3138 / 100) := by
  refine ⟨rfl, fun v => rfl, ?_, ?_, ?_⟩ <;>
    simp only [convert_kmh_to_mph] <;> norm_num [roundTo2, roundHalfEven]

/-- Claim C9: the no-error guarantee of `convert_temperature` holds exactly
for record inputs: any record argument yields a normal result, while the
Python `None` argument raises (`TypeError` from assigning into `None`). -/
theorem C9_convert_temperature_none_raises :
    convert_temperature none = Except.error "TypeError"
    ∧ (∀ d : TempData, ∃ r : TempData, convert_temperature (some d) = Except.ok r) := by
  exact ⟨rfl, fun d => ⟨convert_temperature_rec d, rfl⟩⟩

/-!
## AddressFieldExtractor: `extract_state_for_tides`

Python strings are modelled as `List Char` in the algorithmic core (Lean's
`String` functions do not reduce well in proofs) with `String` at the
boundary.  `pySplit` is Python `str.split(sep)` for a one-character
separator, `pyStrip` is `str.strip()` (ASCII whitespace), `pyIsUpper` is
Python `str.isupper()` (at least one cased character, and all cased
characters uppercase; ASCII letters model the cased characters), `pyIsDigit`
is `str.isdigit()` (nonempty, all digits).
-/

def pySplitAux (sep : Char) : List Char → List Char → List (List Char)
  | [], acc => [acc.reverse]
  | c :: cs, acc =>
    if c = sep then acc.reverse :: pySplitAux sep cs []
    else pySplitAux sep cs (c :: acc)

/-- Python `s.split(sep)` for a single-character separator. -/
def pySplit (sep : Char) (s : List Char) : List (List Char) :=
  pySplitAux sep s []

/-- Python `s.strip()`. -/
def pyStrip (s : List Char) : List Char :=
  ((s.dropWhile Char.isWhitespace).reverse.dropWhile Char.isWhitespace).reverse

/-- Python `s.isupper()`: some cased character exists and every cased
character is uppercase (digits and punctuation are not cased). -/
def pyIsUpper (s : List Char) : Bool :=
  s.any (fun c => c.isAlpha) && s.all (fun c => !c.isAlpha || c.isUpper)

/-- Python `s.isdigit()`: nonempty and all digits. -/
def pyIsDigit (s : List Char) : Bool :=
  !s.isEmpty && s.all (fun c => c.isDigit)

/-- The right-to-left scan of `extract_state_for_tides`: the argument list is
the comma-segments already reversed, mirroring
`for part_idx in range(len(parts) - 1, -1, -1)`. -/
def segScan : List (List Char) → Option (List Char)
  | [] => none
  | p :: rest =>
    let current_part := pyStrip p
    if current_part.length = 2 && pyIsUpper current_part then some current_part
    else if current_part.contains ' ' then
      let state_candidate := (pySplit ' ' current_part).headD []
      if state_candidate.length = 2 && pyIsUpper state_candidate then
        let zip_candidate := ((pySplit ' ' current_part).drop 1).headD []
        if pyIsDigit zip_candidate then some state_candidate else segScan rest
      else segScan rest
    else segScan rest

/-- Embedding of `extract_state_for_tides` (src/weather.py): Python `None`
and the empty string are both falsy, so `if not matched_address_str` maps
both to `none`.  The `try/except` wrapper never fires for the operations
used, so the body is total. -/
def extract_state_for_tides (matched_address_str : Option String) : Option String :=
  match matched_address_str with
  | none => none
  | some s =>
    if s = "" then none
    else (segScan (pySplit ',' s.data).reverse).map String.mk

/-- Specification-side per-segment classifier: a trimmed segment is accepted
either as a bare two-character `isupper` token, or as a
`two-character isupper token + space + all-digit token` pair, in which case
the first space-separated token is returned. -/
def segMatch (p : List Char) : Option (List Char) :=
  let current_part := pyStrip p
  if current_part.length = 2 && pyIsUpper current_part then some current_part
  else if current_part.contains ' ' &&
      ((pySplit ' ' current_part).headD []).length = 2 &&
      pyIsUpper ((pySplit ' ' current_part).headD []) &&
      pyIsDigit (((pySplit ' ' current_part).drop 1).headD []) then
    some ((pySplit ' ' current_part).headD [])
  else none

/-- The imperative right-to-left scan equals the first hit of the
per-segment classifier. -/
theorem segScan_eq_findSome (l : List (List Char)) :
    segScan l = l.findSome? segMatch := by
  induction l with
  | nil => rfl
  | cons p rest ih =>
    rw [List.findSome?_cons, segScan, segMatch]
    split_ifs with h1 h2 h3 h4 <;> simp_all [ih]

/-- Claim C3 fails as stated: for the input `"Anytown, A1"` no segment is two
uppercase letters and no segment matches the space/ZIP pattern, so the claim
demands an absent result; the code returns `"A1"`, because Python
`str.isupper()` also accepts strings containing uncased characters such as
digits (`'1'` is not an uppercase letter, second conjunct). -/
theorem C3_extract_state_counterexample :
    extract_state_for_tides (some "Anytown, A1") = some "A1"
    ∧ Char.isUpper '1' = false := by decide

/-- Claim C3 (amended): segments are scanned right to left and the first
segment accepted by the classifier wins, where a segment is accepted if it
is 2 characters long and Python-`isupper` (at least one letter, all letters
uppercase — not necessarily two uppercase letters), or if it contains a
space and, splitting on single spaces, the first token is 2 characters and
Python-`isupper` and the second token is all digits (tokens after the
second are ignored); absent when no segment matches, and a `None` or empty
input yields absent without raising. -/
theorem C3_extract_state_amended :
    extract_state_for_tides none = none
    ∧ extract_state_for_tides (some "") = none
    ∧ (∀ s : String, s ≠ "" →
        extract_state_for_tides (some s) =
          (((pySplit ',' s.data).reverse).findSome? segMatch).map String.mk)
    ∧ extract_state_for_tides (some "1600 Pennsylvania Ave NW, Washington, DC, 20500") = some "DC"
    ∧ extract_state_for_tides (some "123 Main St, Anytown, CA 90210") = some "CA"
    ∧ extract_state_for_tides (some "no commas here") = none := by
  refine ⟨rfl, rfl, ?_, by decide, by decide, by decide⟩
  intro s hs
  simp only [extract_state_for_tides, if_neg hs, segScan_eq_findSome]

/-- Witness for the amended claim C3 at the concrete input `"DC, 123"`. -/
theorem C3_extract_state_amended_witness :
    ("DC, 123" : String) ≠ ""
    ∧ extract_state_for_tides (some "DC, 123") =
        (((pySplit ',' ("DC, 123" : String).data).reverse).findSome? segMatch).map String.mk :=
  ⟨by decide, C3_extract_state_amended.2.2.1 "DC, 123" (by decide)⟩

/-!
## ReverseGeocodeResolver: `get_city_state_from_latlon`, census branch

The parsed JSON response is modelled by `J`.  Each candidate extraction
`data['result']['geographies'][tier][0]['BASENAME']` is wrapped in
`try/except (KeyError, IndexError, TypeError)` in the source; the
`Option`-chained lookup models exactly that: a missing key, an out-of-range
index or a lookup applied to a value of the wrong shape yields `none`
instead of raising.  (Python string indexing `s[0]` returns a character,
but the subsequent `['BASENAME']` lookup on it then raises `TypeError`, so
collapsing both to `none` is observationally equal for these chains.)
-/

/-- Parsed JSON values. -/
inductive J where
  | null : J
  | str : String → J
  | num : ℚ → J
  | arr : List J → J
  | obj : List (String × J) → J

/-- Python `d[k]` under the candidate `except` clause: `none` on a missing
key or a non-dictionary value. -/
def jGet : J → String → Option J
  | J.obj fs, k => fs.lookup k
  | _, _ => none

/-- Python `l[i]` under the candidate `except` clause: `none` on a
non-array value or an out-of-range index. -/
def jIdx : J → Nat → Option J
  | J.arr xs, n => xs.get? n
  | _, _ => none

/-- One candidate extraction
`data['result']['geographies'][tier][0]['BASENAME']`. -/
def jTier (data : J) (tier : String) : Option J :=
  ((((jGet data "result").bind (fun r => jGet r "geographies")).bind
      (fun g => jGet g tier)).bind (fun t => jIdx t 0)).bind
    (fun e => jGet e "BASENAME")

/-- Python truthiness of a JSON value. -/
def jTruthy : J → Bool
  | J.null => false
  | J.str s => !(s == "")
  | J.num q => !(q == 0)
  | J.arr xs => !xs.isEmpty
  | J.obj fs => !fs.isEmpty

/-- Python truthiness of a possibly-absent JSON value. -/
def oTruthy : Option J → Bool
  | none => false
  | some j => jTruthy j

/-- Python `a + "-" + b`: defined when both operands are strings; any other
operand raises `TypeError`, which the enclosing `except Exception` handler
of the source converts into a `None` result — hence `none` here. -/
def joinHyphen : Option J → Option J → Option J
  | some (J.str a), some (J.str b) => some (J.str (a ++ "-" ++ b))
  | _, _ => none

/-- Embedding of the `use_census_api` branch of `get_city_state_from_latlon`
(src/weather.py), applied to the parsed JSON response. -/
def get_city_state_from_latlon_census (data : J) : Option J :=
  let city := jTier data "Incorporated Places"
  let state := jTier data "States"
  let city_state := jTier data "Urban Areas"
  let county_city := jTier data "County Subdivisions"
  if oTruthy city_state then city_state
  else if oTruthy city && oTruthy state then joinHyphen city state
  else if oTruthy county_city && oTruthy state then joinHyphen county_city state
  else none

/-- A census response whose Urban Areas basename is present but is the empty
string, with County Subdivisions and States tiers populated. -/
def censusCexData : J :=
  J.obj [("result", J.obj [("geographies", J.obj
    [("Urban Areas", J.arr [J.obj [("BASENAME", J.str "")]]),
     ("County Subdivisions", J.arr [J.obj [("BASENAME", J.str "Springfield")]]),
     ("States", J.arr [J.obj [("BASENAME", J.str "Illinois")]])])])]

/-- Claim C2 fails as stated: in `censusCexData` the Urban Area basename is
present (the lookup succeeds and yields `""`), so the claim requires the
function to return it immediately; the code instead treats the empty string
as falsy and falls through to the County Subdivision tier, returning
`"Springfield-Illinois"` — a different value, as `"Springfield-Illinois"`
is not `""`. -/
theorem C2_city_state_counterexample :
    jTier censusCexData "Urban Areas" = some (J.str "")
    ∧ get_city_state_from_latlon_census censusCexData = some (J.str "Springfield-Illinois")
    ∧ ("Springfield-Illinois" : String) ≠ "" := by
  refine ⟨rfl, rfl, by decide⟩

/-- Claim C2 (amended): the census-branch resolver applies its four tiers in
strict priority order, with "present" meaning truthy (a non-empty basename);
a candidate whose lookup fails at any step, or whose value is falsy, falls
through to the next tier without raising: a truthy Urban Area basename is
returned alone; else a truthy Incorporated Place basename and truthy State
basename are joined with a hyphen; else a truthy County Subdivision basename
and truthy State basename are joined with a hyphen; else the result is
absent. -/
theorem C2_city_state_amended (data : J) :
    (∀ u : J, jTier data "Urban Areas" = some u → jTruthy u = true →
      get_city_state_from_latlon_census data = some u)
    ∧ (oTruthy (jTier data "Urban Areas") = false →
      ∀ c s : String, jTier data "Incorporated Places" = some (J.str c) → c ≠ "" →
        jTier data "States" = some (J.str s) → s ≠ "" →
        get_city_state_from_latlon_census data = some (J.str (c ++ "-" ++ s)))
    ∧ (oTruthy (jTier data "Urban Areas") = false →
      oTruthy (jTier data "Incorporated Places") = false →
      ∀ cc s : String, jTier data "County Subdivisions" = some (J.str cc) → cc ≠ "" →
        jTier data "States" = some (J.str s) → s ≠ "" →
        get_city_state_from_latlon_census data = some (J.str (cc ++ "-" ++ s)))
    ∧ (oTruthy (jTier data "Urban Areas") = false →
      (oTruthy (jTier data "Incorporated Places") && oTruthy (jTier data "States")) = false →
      (oTruthy (jTier data "County Subdivisions") && oTruthy (jTier data "States")) = false →
      get_city_state_from_latlon_census data = none) := by
  refine ⟨?_, ?_, ?_, ?_⟩
  · intro u hu htr
    simp only [get_city_state_from_latlon_census, oTruthy, hu, htr, if_pos]
  · intro hurb c s hc hcne hs hsne
    have hct : oTruthy (jTier data "Incorporated Places") = true := by
      rw [hc]; simp [oTruthy, jTruthy, hcne]
    have hst : oTruthy (jTier data "States") = true := by
      rw [hs]; simp [oTruthy, jTruthy, hsne]
    simp only [get_city_state_from_latlon_census, hurb, hct, hst, hc, hs,
      Bool.and_self, Bool.false_eq_true, if_false, if_true]
    simp [oTruthy, jTruthy, joinHyphen, hcne, hsne]
  · intro hurb hcity cc s hcc hccne hs hsne
    have hcct : oTruthy (jTier data "County Subdivisions") = true := by
      rw [hcc]; simp [oTruthy, jTruthy, hccne]
    have hst : oTruthy (jTier data "States") = true := by
      rw [hs]; simp [oTruthy, jTruthy, hsne]
    simp only [get_city_state_from_latlon_census, hurb, hcity, hcct, hst, hcc, hs,
      Bool.false_and, Bool.and_self, Bool.false_eq_true, if_false, if_true]
    simp [oTruthy, jTruthy, joinHyphen, hccne, hsne]
  · intro hurb hcs hcos
    simp only [get_city_state_from_latlon_census, hurb, hcs, hcos,
      Bool.false_eq_true, if_false]

/-- A census response with only the County Subdivisions and States tiers
populated. -/
def censusCountyOnlyData : J :=
  J.obj [("result", J.obj [("geographies", J.obj
    [("County Subdivisions", J.arr [J.obj [("BASENAME", J.str "Queens")]]),
     ("States", J.arr [J.obj [("BASENAME", J.str "New York")]])])])]

/-- Witness for the amended claim C2: with only the County Subdivisions and
States tiers populated, the result is `countySubdivisionBasename + "-" +
stateBasename`. -/
theorem C2_city_state_amended_witness :
    get_city_state_from_latlon_census censusCountyOnlyData =
      some (J.str ("Queens" ++ "-" ++ "New York")) :=
  (C2_city_state_amended censusCountyOnlyData).2.2.1 rfl rfl
    "Queens" "New York" rfl (by decide) rfl (by decide)

/-!
## GeoDistance: `haversine_distance`

The trigonometric part is modelled over the real numbers.  `atan2` follows
the standard quadrant definition of Python's `math.atan2` (real numbers
carry no signed zero, which only affects inputs this program never
produces: here the second argument is always a square root, hence
nonnegative).
-/

noncomputable section

/-- Python `math.radians`. -/
def radians (x : ℝ) : ℝ := x * Real.pi / 180

open Classical in
/-- Python `math.atan2 y x` over the reals. -/
def atan2 (y x : ℝ) : ℝ :=
  if 0 < x then Real.arctan (y / x)
  else if x < 0 then
    (if 0 ≤ y then Real.arctan (y / x) + Real.pi else Real.arctan (y / x) - Real.pi)
  else if 0 < y then Real.pi / 2
  else if y < 0 then -(Real.pi / 2)
  else 0

/-- The intermediate value
`a = sin(dlat/2)**2 + cos(lat1) * cos(lat2) * sin(dlon/2)**2` of
`haversine_distance` (src/weather.py), with the four inputs already
converted from degrees by `map(math.radians, ...)`. -/
def hav_a (lat1 lon1 lat2 lon2 : ℝ) : ℝ :=
  Real.sin ((radians lat2 - radians lat1) / 2) ^ 2 +
    Real.cos (radians lat1) * Real.cos (radians lat2) *
      Real.sin ((radians lon2 - radians lon1) / 2) ^ 2

/-- Embedding of `haversine_distance` (src/weather.py):
`R = 6371`, `c = 2 * atan2(sqrt(a), sqrt(1-a))`, `distance = R * c`. -/
def haversine_distance (lat1 lon1 lat2 lon2 : ℝ) : ℝ :=
  6371 * (2 * atan2 (Real.sqrt (hav_a lat1 lon1 lat2 lon2))
      (Real.sqrt (1 - hav_a lat1 lon1 lat2 lon2)))

end

theorem hav_a_symm (lat1 lon1 lat2 lon2 : ℝ) :
    hav_a lat1 lon1 lat2 lon2 = hav_a lat2 lon2 lat1 lon1 := by
  unfold hav_a
  have h1 : Real.sin ((radians lat1 - radians lat2) / 2) ^ 2
      = Real.sin ((radians lat2 - radians lat1) / 2) ^ 2 := by
    rw [show (radians lat1 - radians lat2) / 2 = -((radians lat2 - radians lat1) / 2) by ring,
      Real.sin_neg]
    ring
  have h2 : Real.sin ((radians lon1 - radians lon2) / 2) ^ 2
      = Real.sin ((radians lon2 - radians lon1) / 2) ^ 2 := by
    rw [show (radians lon1 - radians lon2) / 2 = -((radians lon2 - radians lon1) / 2) by ring,
      Real.sin_neg]
    ring
  rw [h1, h2]
  ring

theorem hav_a_self (lat lon : ℝ) : hav_a lat lon lat lon = 0 := by
  unfold hav_a
  simp

theorem radians_mem (x : ℝ) (h1 : -90 ≤ x) (h2 : x ≤ 90) :
    -(Real.pi / 2) ≤ radians x ∧ radians x ≤ Real.pi / 2 := by
  have hpi := Real.pi_pos
  constructor
  · unfold radians; nlinarith
  · unfold radians; nlinarith

theorem hav_a_nonneg (lat1 lon1 lat2 lon2 : ℝ)
    (h1 : -90 ≤ lat1) (h2 : lat1 ≤ 90) (h3 : -90 ≤ lat2) (h4 : lat2 ≤ 90) :
    0 ≤ hav_a lat1 lon1 lat2 lon2 := by
  have c1 := Real.cos_nonneg_of_mem_Icc (Set.mem_Icc.mpr (radians_mem lat1 h1 h2))
  have c2 := Real.cos_nonneg_of_mem_Icc (Set.mem_Icc.mpr (radians_mem lat2 h3 h4))
  unfold hav_a
  have s1 := sq_nonneg (Real.sin ((radians lat2 - radians lat1) / 2))
  have s2 := sq_nonneg (Real.sin ((radians lon2 - radians lon1) / 2))
  nlinarith [mul_nonneg (mul_nonneg c1 c2) s2]

theorem hav_a_le_one (lat1 lon1 lat2 lon2 : ℝ)
    (h1 : -90 ≤ lat1) (h2 : lat1 ≤ 90) (h3 : -90 ≤ lat2) (h4 : lat2 ≤ 90) :
    hav_a lat1 lon1 lat2 lon2 ≤ 1 := by
  have c1 := Real.cos_nonneg_of_mem_Icc (Set.mem_Icc.mpr (radians_mem lat1 h1 h2))
  have c2 := Real.cos_nonneg_of_mem_Icc (Set.mem_Icc.mpr (radians_mem lat2 h3 h4))
  set A := radians lat1
  set B := radians lat2
  have hsinsq : Real.sin ((B - A) / 2) ^ 2 = 1 / 2 - Real.cos (B - A) / 2 := by
    rw [Real.sin_sq, Real.cos_sq]
    rw [show 2 * ((B - A) / 2) = B - A by ring]
    ring
  have hcos_sub : Real.cos (B - A) = Real.cos B * Real.cos A + Real.sin B * Real.sin A :=
    Real.cos_sub B A
  have hcos_add : Real.cos (A + B) = Real.cos A * Real.cos B - Real.sin A * Real.sin B :=
    Real.cos_add A B
  have hle : Real.cos (A + B) ≤ 1 := Real.cos_le_one _
  have hy : Real.sin ((radians lon2 - radians lon1) / 2) ^ 2 ≤ 1 := Real.sin_sq_le_one _
  have hy0 : 0 ≤ Real.sin ((radians lon2 - radians lon1) / 2) ^ 2 := sq_nonneg _
  unfold hav_a
  nlinarith [mul_nonneg c1 c2]

theorem atan2_bounds (y x : ℝ) (hy : 0 ≤ y) (hx : 0 ≤ x) :
    0 ≤ atan2 y x ∧ atan2 y x ≤ Real.pi / 2 := by
  have hpi := Real.pi_pos
  unfold atan2
  rcases lt_or_eq_of_le hx with hxpos | hxzero
  · rw [if_pos hxpos]
    constructor
    · have h0 : 0 ≤ y / x := div_nonneg hy (le_of_lt hxpos)
      have h1 := Real.arctan_strictMono.monotone h0
      rwa [Real.arctan_zero] at h1
    · exact le_of_lt (Real.arctan_lt_pi_div_two _)
  · rw [if_neg (by rw [← hxzero]; exact lt_irrefl 0),
      if_neg (by rw [← hxzero]; exact lt_irrefl 0)]
    rcases lt_or_eq_of_le hy with hypos | hyzero
    · rw [if_pos hypos]
      constructor <;> linarith
    · rw [if_neg (by rw [← hyzero]; exact lt_irrefl 0),
        if_neg (by rw [← hyzero]; exact not_lt_of_le (le_refl 0))]
      constructor <;> linarith

/-- Claim C7: for any coordinates valid in degrees, the haversine
computation is total and bounded: the intermediate `a` stays in `[0, 1]`
(so `sqrt(1-a)` is the square root of a nonnegative number and no step
fails), and the resulting distance is a finite value in
`[0, 6371 * π]` kilometers. -/
theorem C7_haversine_total (lat1 lon1 lat2 lon2 : ℝ)
    (h1 : -90 ≤ lat1) (h2 : lat1 ≤ 90) (h3 : -90 ≤ lat2) (h4 : lat2 ≤ 90)
    (h5 : -180 ≤ lon1) (h6 : lon1 ≤ 180) (h7 : -180 ≤ lon2) (h8 : lon2 ≤ 180) :
    0 ≤ hav_a lat1 lon1 lat2 lon2
    ∧ hav_a lat1 lon1 lat2 lon2 ≤ 1
    ∧ 0 ≤ haversine_distance lat1 lon1 lat2 lon2
    ∧ haversine_distance lat1 lon1 lat2 lon2 ≤ 6371 * Real.pi := by
  have hb := atan2_bounds (Real.sqrt (hav_a lat1 lon1 lat2 lon2))
      (Real.sqrt (1 - hav_a lat1 lon1 lat2 lon2)) (Real.sqrt_nonneg _) (Real.sqrt_nonneg _)
  refine ⟨hav_a_nonneg lat1 lon1 lat2 lon2 h1 h2 h3 h4,
    hav_a_le_one lat1 lon1 lat2 lon2 h1 h2 h3 h4, ?_, ?_⟩ <;>
    · unfold haversine_distance
      nlinarith [hb.1, hb.2]

/-- Witness for claim C7 at the concrete coordinates (0, 0) and (45, 90). -/
theorem C7_haversine_total_witness :
    0 ≤ hav_a 0 0 45 90
    ∧ hav_a 0 0 45 90 ≤ 1
    ∧ 0 ≤ haversine_distance 0 0 45 90
    ∧ haversine_distance 0 0 45 90 ≤ 6371 * Real.pi :=
  C7_haversine_total 0 0 45 90 (by norm_num) (by norm_num) (by norm_num) (by norm_num)
    (by norm_num) (by norm_num) (by norm_num) (by norm_num)

/-- Claim C8: `haversine_distance` is symmetric in its two coordinate pairs,
and the distance from any coordinate to itself is 0. -/
theorem C8_haversine_symm_ident :
    (∀ lat1 lon1 lat2 lon2 : ℝ,
      haversine_distance lat1 lon1 lat2 lon2 = haversine_distance lat2 lon2 lat1 lon1)
    ∧ (∀ lat lon : ℝ, haversine_distance lat lon lat lon = 0) := by
  constructor
  · intro lat1 lon1 lat2 lon2
    unfold haversine_distance
    rw [hav_a_symm]
  · intro lat lon
    unfold haversine_distance
    rw [hav_a_self]
    simp [atan2]

/-!
## NearestStationResolver: `noaa_get_nearest_tide_station`

A candidate tide station is modelled by its `id` and its parsed
latitude/longitude: `none` stands for a missing `lat`/`lon`/`lng` key or a
value that `float()` cannot parse — exactly the cases in which the source's
per-candidate `except (ValueError, TypeError, KeyError)` clause skips the
candidate.  (A candidate with a missing `id` key is not modelled; no claim
concerns it.)  `noaa_tide_loop` is the selection loop with its
`min_distance`/`nearest_station_id` accumulator (`none` = initial
`float('inf')`/`None` state); `noaa_get_nearest_tide_station` applies the
final truthiness check `if nearest_station_id:` of the source, under which
an empty-string id is falsy and yields `None`.  `bestTide` is the
specification-side recursion (first-encountered candidate wins ties), and
`mergeAcc` combines an accumulator with the best of the remaining list.
-/

structure TideStation where
  id : String
  lat : Option ℝ
  lon : Option ℝ

def coords? (s : TideStation) : Option (ℝ × ℝ) :=
  match s.lat, s.lon with
  | some la, some lo => some (la, lo)
  | _, _ => none

open Classical in
noncomputable def noaa_tide_loop (tlat tlon : ℝ) :
    List TideStation → Option (ℝ × String) → Option (ℝ × String)
  | [], acc => acc
  | s :: rest, acc =>
    match coords? s with
    | none => noaa_tide_loop tlat tlon rest acc
    | some (la, lo) =>
      let d := haversine_distance tlat tlon la lo
      match acc with
      | none => noaa_tide_loop tlat tlon rest (some (d, s.id))
      | some (m, b) =>
        if d < m then noaa_tide_loop tlat tlon rest (some (d, s.id))
        else noaa_tide_loop tlat tlon rest (some (m, b))

noncomputable def noaa_get_nearest_tide_station (tlat tlon : ℝ)
    (state_stations : List TideStation) : Option String :=
  match noaa_tide_loop tlat tlon state_stations none with
  | some (_, b) => if b = "" then none else some b
  | none => none

open Classical in
noncomputable def bestTide (tlat tlon : ℝ) : List TideStation → Option (ℝ × String)
  | [] => none
  | s :: rest =>
    match coords? s with
    | none => bestTide tlat tlon rest
    | some (la, lo) =>
      let d := haversine_distance tlat tlon la lo
      match bestTide tlat tlon rest with
      | none => some (d, s.id)
      | some (m, b) => if d ≤ m then some (d, s.id) else some (m, b)

open Classical in
noncomputable def mergeAcc : Option (ℝ × String) → Option (ℝ × String) → Option (ℝ × String)
  | none, r => r
  | some (m, b), none => some (m, b)
  | some (m, b), some (n, c) => if n < m then some (n, c) else some (m, b)

/-- The selection loop equals the merge of its accumulator with the
specification-side best candidate of the list. -/
theorem tide_loop_eq (tlat tlon : ℝ) (ss : List TideStation) :
    ∀ acc, noaa_tide_loop tlat tlon ss acc = mergeAcc acc (bestTide tlat tlon ss) := by
  induction ss with
  | nil =>
    intro acc
    cases acc with
    | none => rfl
    | some p => obtain ⟨m, b⟩ := p; rfl
  | cons s rest ih =>
    intro acc
    rw [noaa_tide_loop, bestTide]
    split
    · exact ih acc
    · next p la lo heq =>
      cases acc with
      | none =>
        dsimp only
        rw [ih (some (haversine_distance tlat tlon la lo, s.id))]
        cases hb : bestTide tlat tlon rest with
        | none => rfl
        | some q =>
          obtain ⟨n, c⟩ := q
          dsimp only [mergeAcc]
          split_ifs <;> first | rfl | (exfalso; linarith)
      | some p2 =>
        obtain ⟨m, b⟩ := p2
        dsimp only
        by_cases hdm : haversine_distance tlat tlon la lo < m
        · rw [if_pos hdm, ih (some (haversine_distance tlat tlon la lo, s.id))]
          cases hb : bestTide tlat tlon rest with
          | none =>
            dsimp only [mergeAcc]
            rw [if_pos hdm]
          | some q =>
            obtain ⟨n, c⟩ := q
            dsimp only [mergeAcc]
            split_ifs <;> dsimp only [mergeAcc] <;> split_ifs <;> first | rfl | (exfalso; linarith)
        · rw [if_neg hdm, ih (some (m, b))]
          cases hb : bestTide tlat tlon rest with
          | none =>
            dsimp only [mergeAcc]
            rw [if_neg hdm]
          | some q =>
            obtain ⟨n, c⟩ := q
            dsimp only [mergeAcc]
            split_ifs <;> dsimp only [mergeAcc] <;> split_ifs <;> first | rfl | (exfalso; linarith)

/-- The best candidate is absent exactly when every candidate has invalid
coordinates. -/
theorem bestTide_eq_none_iff (tlat tlon : ℝ) (ss : List TideStation) :
    bestTide tlat tlon ss = none ↔ ∀ s ∈ ss, coords? s = none := by
  induction ss with
  | nil => simp [bestTide]
  | cons s rest ih =>
    rw [bestTide]
    cases hc : coords? s with
    | none => simp [List.forall_mem_cons, hc, ih]
    | some p =>
      obtain ⟨la, lo⟩ := p
      dsimp only
      cases hb : bestTide tlat tlon rest with
      | none => simp [List.forall_mem_cons, hc]
      | some q =>
        obtain ⟨n, c⟩ := q
        dsimp only
        split_ifs <;> simp [List.forall_mem_cons, hc]

/-- The best candidate has minimal haversine distance among all candidates
with valid coordinates. -/
theorem bestTide_min (tlat tlon : ℝ) :
    ∀ (ss : List TideStation) (m : ℝ) (b : String),
      bestTide tlat tlon ss = some (m, b) →
      ∀ u ∈ ss, ∀ la lo, coords? u = some (la, lo) →
        m ≤ haversine_distance tlat tlon la lo := by
  intro ss
  induction ss with
  | nil => intro m b hm; simp [bestTide] at hm
  | cons s rest ih =>
    intro m b hm u hu la lo hcu
    rw [bestTide] at hm
    rcases List.mem_cons.mp hu with rfl | hur
    · rw [hcu] at hm
      dsimp only at hm
      cases hb : bestTide tlat tlon rest with
      | none =>
        rw [hb] at hm
        dsimp only at hm
        have h1 : haversine_distance tlat tlon la lo = m :=
          congrArg Prod.fst (Option.some.inj hm)
        linarith
      | some q =>
        obtain ⟨n, c⟩ := q
        rw [hb] at hm
        dsimp only at hm
        split_ifs at hm with hdn
        · have h1 : haversine_distance tlat tlon la lo = m :=
            congrArg Prod.fst (Option.some.inj hm)
          linarith
        · have h1 : n = m := congrArg Prod.fst (Option.some.inj hm)
          have h2 := lt_of_not_le hdn
          linarith
    · cases hcs : coords? s with
      | none =>
        rw [hcs] at hm
        dsimp only at hm
        exact ih m b hm u hur la lo hcu
      | some p =>
        obtain ⟨la2, lo2⟩ := p
        rw [hcs] at hm
        dsimp only at hm
        cases hb : bestTide tlat tlon rest with
        | none =>
          have hall := (bestTide_eq_none_iff tlat tlon rest).mp hb
          rw [hall u hur] at hcu
          cases hcu
        | some q =>
          obtain ⟨n, c⟩ := q
          rw [hb] at hm
          dsimp only at hm
          have hn := ih n c hb u hur la lo hcu
          split_ifs at hm with hdn
          · have h1 : haversine_distance tlat tlon la2 lo2 = m :=
              congrArg Prod.fst (Option.some.inj hm)
            linarith
          · have h1 : n = m := congrArg Prod.fst (Option.some.inj hm)
            linarith

/-- Decomposition: the best candidate appears in the list, its distance is
the reported minimum, and every earlier valid candidate is strictly
farther (first-encountered wins exact ties). -/
theorem bestTide_first (tlat tlon : ℝ) :
    ∀ (ss : List TideStation) (m : ℝ) (b : String),
      bestTide tlat tlon ss = some (m, b) →
      ∃ pre u post, ss = pre ++ u :: post ∧ u.id = b ∧
        (∃ la lo, coords? u = some (la, lo) ∧ m = haversine_distance tlat tlon la lo) ∧
        ∀ v ∈ pre, ∀ la lo, coords? v = some (la, lo) →
          m < haversine_distance tlat tlon la lo := by
  intro ss
  induction ss with
  | nil => intro m b hm; simp [bestTide] at hm
  | cons s rest ih =>
    intro m b hm
    rw [bestTide] at hm
    cases hcs : coords? s with
    | none =>
      rw [hcs] at hm
      dsimp only at hm
      obtain ⟨pre, u, post, hsplit, hid, hco, hpre⟩ := ih m b hm
      refine ⟨s :: pre, u, post, by rw [hsplit]; rfl, hid, hco, ?_⟩
      intro v hv la lo hcv
      rcases List.mem_cons.mp hv with rfl | hvp
      · rw [hcs] at hcv; cases hcv
      · exact hpre v hvp la lo hcv
    | some p =>
      obtain ⟨la0, lo0⟩ := p
      rw [hcs] at hm
      dsimp only at hm
      cases hb : bestTide tlat tlon rest with
      | none =>
        rw [hb] at hm
        dsimp only at hm
        have hm1 : haversine_distance tlat tlon la0 lo0 = m :=
          congrArg Prod.fst (Option.some.inj hm)
        have hb1 : s.id = b := congrArg Prod.snd (Option.some.inj hm)
        exact ⟨[], s, rest, rfl, hb1, ⟨la0, lo0, hcs, hm1.symm⟩, by simp⟩
      | some q =>
        obtain ⟨n, c⟩ := q
        rw [hb] at hm
        dsimp only at hm
        split_ifs at hm with hdn
        · have hm1 : haversine_distance tlat tlon la0 lo0 = m :=
            congrArg Prod.fst (Option.some.inj hm)
          have hb1 : s.id = b := congrArg Prod.snd (Option.some.inj hm)
          exact ⟨[], s, rest, rfl, hb1, ⟨la0, lo0, hcs, hm1.symm⟩, by simp⟩
        · have hn1 : n = m := congrArg Prod.fst (Option.some.inj hm)
          have hc1 : c = b := congrArg Prod.snd (Option.some.inj hm)
          subst hn1
          subst hc1
          obtain ⟨pre, u, post, hsplit, hid, hco, hpre⟩ := ih n c hb
          refine ⟨s :: pre, u, post, by rw [hsplit]; rfl, hid, hco, ?_⟩
          intro v hv la lo hcv
          rcases List.mem_cons.mp hv with rfl | hvp
          · rw [hcs] at hcv
            have hla : la0 = la := congrArg Prod.fst (Option.some.inj hcv)
            have hlo : lo0 = lo := congrArg Prod.snd (Option.some.inj hcv)
            subst hla
            subst hlo
            exact lt_of_not_le hdn
          · exact hpre v hvp la lo hcv

/-- Claim C1 fails as stated: a single-candidate list whose candidate has
valid coordinates (first conjunct) must by the claim yield that candidate,
and absence is promised only for an empty list or all-invalid candidates;
but when the winning candidate's id is the empty string, the final Python
truthiness check `if nearest_station_id:` makes the function return `None`
nonetheless. -/
theorem C1_tide_nearest_counterexample :
    coords? ⟨"", some 0, some 0⟩ = some (0, 0)
    ∧ noaa_get_nearest_tide_station 0 0 [⟨"", some 0, some 0⟩] = none :=
  ⟨rfl, rfl⟩

/-- Claim C1 (amended): the nearest-station selection returns the id of the
candidate with minimal haversine distance to the target, skipping
candidates with invalid or unparseable coordinates; on an exact tie the
first-encountered candidate wins (every valid candidate before the winner
is strictly farther); the result is absent when the candidate list is empty
or every candidate has invalid coordinates — and also in the one further
case that the winning candidate's id is the empty string, which the final
truthiness check treats like `None`; a winning candidate with a non-empty
id is always returned. -/
theorem C1_tide_nearest_amended (tlat tlon : ℝ) (ss : List TideStation) :
    ((∀ s ∈ ss, coords? s = none) → noaa_get_nearest_tide_station tlat tlon ss = none)
    ∧ (∀ b, noaa_get_nearest_tide_station tlat tlon ss = some b →
        b ≠ "" ∧ ∃ pre u post, ss = pre ++ u :: post ∧ u.id = b ∧
          ∃ la lo, coords? u = some (la, lo) ∧
            (∀ v ∈ ss, ∀ la2 lo2, coords? v = some (la2, lo2) →
              haversine_distance tlat tlon la lo ≤ haversine_distance tlat tlon la2 lo2) ∧
            (∀ v ∈ pre, ∀ la2 lo2, coords? v = some (la2, lo2) →
              haversine_distance tlat tlon la lo < haversine_distance tlat tlon la2 lo2))
    ∧ (∀ m b, bestTide tlat tlon ss = some (m, b) → b ≠ "" →
        noaa_get_nearest_tide_station tlat tlon ss = some b) := by
  have hloop : noaa_tide_loop tlat tlon ss none = bestTide tlat tlon ss :=
    tide_loop_eq tlat tlon ss none
  refine ⟨?_, ?_, ?_⟩
  · intro hall
    unfold noaa_get_nearest_tide_station
    rw [hloop, (bestTide_eq_none_iff tlat tlon ss).mpr hall]
  · intro b hres
    unfold noaa_get_nearest_tide_station at hres
    rw [hloop] at hres
    cases hb : bestTide tlat tlon ss with
    | none => rw [hb] at hres; cases hres
    | some q =>
      obtain ⟨m, b0⟩ := q
      rw [hb] at hres
      dsimp only at hres
      split_ifs at hres with hb0
      have hbb : b0 = b := Option.some.inj hres
      subst hbb
      refine ⟨hb0, ?_⟩
      obtain ⟨pre, u, post, hsplit, hid, ⟨la, lo, hcu, hmval⟩, hpre⟩ :=
        bestTide_first tlat tlon ss m b0 hb
      have hmin := bestTide_min tlat tlon ss m b0 hb
      refine ⟨pre, u, post, hsplit, hid, la, lo, hcu, ?_, ?_⟩
      · intro v hv la2 lo2 hcv
        rw [← hmval]
        exact hmin v hv la2 lo2 hcv
      · intro v hv la2 lo2 hcv
        rw [← hmval]
        exact hpre v hv la2 lo2 hcv
  · intro m b hbest hbne
    unfold noaa_get_nearest_tide_station
    rw [hloop, hbest]
    dsimp only
    rw [if_neg hbne]

/-- Witness for the amended claim C1: a one-candidate list with invalid
coordinates produces an absent result. -/
theorem C1_tide_nearest_amended_witness :
    (∀ s ∈ ([⟨"A", none, none⟩] : List TideStation), coords? s = none)
    ∧ noaa_get_nearest_tide_station 0 0 [⟨"A", none, none⟩] = none := by
  have h : ∀ s ∈ ([⟨"A", none, none⟩] : List TideStation), coords? s = none := by
    intro s hs
    rw [List.mem_singleton] at hs
    subst hs
    rfl
  exact ⟨h, (C1_tide_nearest_amended 0 0 [⟨"A", none, none⟩]).1 h⟩

/-!
## StationWeatherAggregator: `get_station_weather`

The three external fetches of the per-station loop are modelled by
`FetchEnv`; `none` stands for the fetch failing (network error, bad status,
or a raising payload traversal — each sub-step is wrapped in its own
`try/except`).  `forecast` collapses the points fetch, the forecast-URL
fetch and the `periods[0].detailedForecast` extraction into one oracle from
the coordinate.  The derived URL fields of step 4 (`address_map_url`,
`airports_url`) are pure string formatting and are not modelled; no claim
mentions them.  The observation fields are written as one record update
with one value per field, the same values the source assigns.
-/

/-- Station metadata: `properties.name`, `properties.timeZone` and
`geometry.coordinates` (a coordinate may be JSON `null`). -/
structure StationMetadata where
  name : String
  timeZone : String
  lat : Option ℚ
  lon : Option ℚ
  deriving DecidableEq, Repr

/-- The observation-response fields the aggregator reads; each may be JSON
`null`. -/
structure ObsProps where
  temperature : Option TempData
  windSpeed : Option TempData
  windDirection : Option TempData
  textDescription : Option String
  deriving DecidableEq, Repr

/-- The external fetches used by `get_station_weather`. -/
structure FetchEnv where
  metadata : String → Option StationMetadata
  observation : String → Option ObsProps
  forecast : ℚ → ℚ → Option String

/-- The per-station record built by `get_station_weather`.  `wind_speed`
holds the converted mph value (the source embeds it in an `"... mph"`
string). -/
structure StationPayload where
  station_id : String
  labelled_name : String
  station_name : Option String
  timezone : Option String
  latitude : Option ℚ
  longitude : Option ℚ
  temperature : Option ℚ
  temperature_unit : Option String
  wind_speed : Option ℚ
  wind_direction : Option ℚ
  current_conditions : Option String
  forecast : Option String
  deriving DecidableEq, Repr

/-- Embedding of one iteration of the `get_station_weather` loop
(src/weather.py): metadata failure skips the station (`none`); observation
failure degrades the five observation fields to `None`; forecast failure
(or a missing coordinate) degrades only `forecast`. -/
def processStation (env : FetchEnv) (station_id labelled_name : String) :
    Option StationPayload :=
  match env.metadata station_id with
  | none => none
  | some md =>
    let p1 : StationPayload :=
      { station_id := station_id, labelled_name := labelled_name,
        station_name := some md.name, timezone := some md.timeZone,
        latitude := md.lat, longitude := md.lon,
        temperature := none, temperature_unit := none, wind_speed := none,
        wind_direction := none, current_conditions := none, forecast := none }
    let p2 :=
      match env.observation station_id with
      | none =>
        { p1 with
          temperature := none
          temperature_unit := none
          wind_speed := none
          wind_direction := none
          current_conditions := none }
      | some obs =>
        { p1 with
          temperature :=
            (match obs.temperature with
             | some t => (convert_temperature_rec t).value
             | none => none)
          temperature_unit :=
            (match obs.temperature with
             | some t => (convert_temperature_rec t).unitCode
             | none => none)
          wind_speed :=
            (match obs.windSpeed with
             | some w =>
               (match w.value with
                | some v => convert_kmh_to_mph (some v)
                | none => none)
             | none => none)
          wind_direction :=
            (match obs.windDirection with
             | some w => w.value
             | none => none)
          current_conditions := obs.textDescription }
    match p2.latitude, p2.longitude with
    | some la, some lo => some { p2 with forecast := env.forecast la lo }
    | _, _ => some { p2 with forecast := none }

/-- Embedding of the `get_station_weather` batch loop: a skipped station
(`continue`) drops out, every other station appends its payload. -/
def get_station_weather (env : FetchEnv) : List (String × String) → List StationPayload
  | [] => []
  | (station_id, labelled_name) :: rest =>
    match processStation env station_id labelled_name with
    | none => get_station_weather env rest
    | some p => p :: get_station_weather env rest

/-- Forgets the forecast field, for stating that the forecast fetch can
influence nothing else. -/
def clearForecast (p : StationPayload) : StationPayload :=
  { p with forecast := none }

/-- Claim C4: metadata failure skips the station and the batch continues;
observation failure after successful metadata keeps name, timezone and
coordinates while the five observation fields become absent, and the batch
continues; forecast failure degrades only the forecast field; and the
metadata and observation outcomes fully determine every non-forecast field,
so a later step's failure never unwinds an earlier step's fields. -/
theorem C4_station_weather_degrade (env : FetchEnv) (sid label : String)
    (rest : List (String × String)) :
    (env.metadata sid = none →
      get_station_weather env ((sid, label) :: rest) = get_station_weather env rest)
    ∧ (∀ md, env.metadata sid = some md → env.observation sid = none →
      ∃ p, processStation env sid label = some p
        ∧ get_station_weather env ((sid, label) :: rest) = p :: get_station_weather env rest
        ∧ p.station_name = some md.name ∧ p.timezone = some md.timeZone
        ∧ p.latitude = md.lat ∧ p.longitude = md.lon
        ∧ p.temperature = none ∧ p.temperature_unit = none ∧ p.wind_speed = none
        ∧ p.wind_direction = none ∧ p.current_conditions = none)
    ∧ (∀ md la lo, env.metadata sid = some md → md.lat = some la → md.lon = some lo →
      env.forecast la lo = none →
      ∃ p, processStation env sid label = some p ∧ p.forecast = none)
    ∧ (∀ env2 : FetchEnv, (∀ s, env2.metadata s = env.metadata s) →
      (∀ s, env2.observation s = env.observation s) →
      (processStation env sid label).map clearForecast
        = (processStation env2 sid label).map clearForecast) := by
  refine ⟨?_, ?_, ?_, ?_⟩
  · intro hmd
    simp [get_station_weather, processStation, hmd]
  · intro md hmd hobs
    have hp : ∃ p, processStation env sid label = some p
        ∧ p.station_name = some md.name ∧ p.timezone = some md.timeZone
        ∧ p.latitude = md.lat ∧ p.longitude = md.lon
        ∧ p.temperature = none ∧ p.temperature_unit = none ∧ p.wind_speed = none
        ∧ p.wind_direction = none ∧ p.current_conditions = none := by
      unfold processStation
      rw [hmd, hobs]
      dsimp only
      cases hla : md.lat with
      | none => exact ⟨_, rfl, rfl, rfl, rfl, rfl, rfl, rfl, rfl, rfl, rfl⟩
      | some la =>
        cases hlo : md.lon with
        | none => exact ⟨_, rfl, rfl, rfl, rfl, rfl, rfl, rfl, rfl, rfl, rfl⟩
        | some lo => exact ⟨_, rfl, rfl, rfl, rfl, rfl, rfl, rfl, rfl, rfl, rfl⟩
    obtain ⟨p, hppr, hfields⟩ := hp
    exact ⟨p, hppr, by simp [get_station_weather, hppr], hfields⟩
  · intro md la lo hmd hla hlo hfc
    unfold processStation
    rw [hmd]
    cases hobs : env.observation sid with
    | none =>
      dsimp only
      rw [hla, hlo]
      exact ⟨_, rfl, hfc⟩
    | some obs =>
      dsimp only
      rw [hla, hlo]
      exact ⟨_, rfl, hfc⟩
  · intro env2 h1 h2
    unfold processStation
    rw [h1 sid, h2 sid]
    cases hmd : env.metadata sid with
    | none => rfl
    | some md =>
      dsimp only
      cases hobs2 : env.observation sid with
      | none =>
        cases hla : md.lat with
        | none => rfl
        | some la =>
          cases hlo : md.lon with
          | none => rfl
          | some lo => rfl
      | some obs =>
        cases hla : md.lat with
        | none => rfl
        | some la =>
          cases hlo : md.lon with
          | none => rfl
          | some lo => rfl

/-- A concrete environment for the C4 witness: metadata for station "KNYC"
succeeds, every observation fetch fails, every forecast fetch fails. -/
def c4WitnessEnv : FetchEnv :=
  { metadata := fun s =>
      if s = "KNYC" then
        some ⟨"New York City, Central Park", "America/New_York", some 40, some (-74)⟩
      else none
    observation := fun _ => none
    forecast := fun _ _ => none }

/-- Witness for claim C4: with successful metadata and a failing observation
fetch, the record keeps name/timezone/coordinates, the five observation
fields are absent, and the batch continues. -/
theorem C4_station_weather_degrade_witness :
    ∃ p, processStation c4WitnessEnv "KNYC" "New York" = some p
      ∧ get_station_weather c4WitnessEnv [("KNYC", "New York")]
          = p :: get_station_weather c4WitnessEnv []
      ∧ p.station_name = some "New York City, Central Park"
      ∧ p.timezone = some "America/New_York"
      ∧ p.latitude = some 40 ∧ p.longitude = some (-74)
      ∧ p.temperature = none ∧ p.temperature_unit = none ∧ p.wind_speed = none
      ∧ p.wind_direction = none ∧ p.current_conditions = none :=
  (C4_station_weather_degrade c4WitnessEnv "KNYC" "New York" []).2.1
    ⟨"New York City, Central Park", "America/New_York", some 40, some (-74)⟩ rfl rfl

/-!
## `get_nearest_stations` (the "4 nearest weather stations" path)

All per-station observation fetches run inside the single `try/except
requests.exceptions.RequestException` of the function.  `NEnv.observation`
returns `none` on a `RequestException` (the outer handler then returns
`None` for the whole call, discarding stations already processed), and
`some none` when the parsed body is JSON `null` (the
`if observation_data is not None` check then skips the station).  The
source reads `wind_speed['value']` with no `None` check, so a `null`
`windSpeed` raises an uncaught `TypeError` that escapes the function: that
is the `Except.error` case.  URL and string formatting are omitted as in
the aggregator model.
-/

/-- A station feature of the `points/{lat},{lon}/stations` response. -/
structure NStation where
  station_id : String
  name : String
  lat : ℚ
  lon : ℚ
  deriving DecidableEq, Repr

/-- The record `get_nearest_stations` builds per station. -/
structure StationForecast where
  name : String
  station_id : String
  temperature : Option ℚ
  temperature_unit : Option String
  wind_speed : Option ℚ
  wind_direction : Option ℚ
  deriving DecidableEq, Repr

/-- The external fetches used by `get_nearest_stations`. -/
structure NEnv where
  stationsList : ℚ → ℚ → Option (List NStation)
  observation : String → Option (Option ObsProps)

/-- The per-station loop of `get_nearest_stations`, carrying the
`station_forecasts` accumulator. -/
def nearest_loop (env : NEnv) : List NStation → List StationForecast →
    Except Unit (Option (List StationForecast))
  | [], acc => Except.ok (some acc)
  | st :: rest, acc =>
    match env.observation st.station_id with
    | none => Except.ok none
    | some none => nearest_loop env rest acc
    | some (some obs) =>
      let tvals :=
        match obs.temperature with
        | some t => ((convert_temperature_rec t).value, (convert_temperature_rec t).unitCode)
        | none => (none, none)
      match obs.windSpeed with
      | none => Except.error ()
      | some w =>
        let sf : StationForecast :=
          { name := st.name
            station_id := st.station_id
            temperature := tvals.1
            temperature_unit := tvals.2
            wind_speed := convert_kmh_to_mph w.value
            wind_direction :=
              (match obs.windDirection with
               | some w2 => w2.value
               | none => none) }
        nearest_loop env rest (acc ++ [sf])

/-- Embedding of `get_nearest_stations` (src/weather.py): fetch the station
features, keep the first four (`features[:4]`), then run the loop. -/
def get_nearest_stations (env : NEnv) (latitude longitude : ℚ) :
    Except Unit (Option (List StationForecast)) :=
  match env.stationsList latitude longitude with
  | none => Except.ok none
  | some feats => nearest_loop env (feats.take 4) []

/-- If some station in the list has a failing observation fetch (and no
earlier station has a `null` `windSpeed`, which would instead raise), the
loop returns `None` for the whole call, whatever has been accumulated. -/
theorem nearest_loop_abort (env : NEnv) :
    ∀ (l : List NStation) (acc : List StationForecast),
      (∀ st ∈ l, ∀ obs, env.observation st.station_id = some (some obs) →
        obs.windSpeed ≠ none) →
      (∃ st ∈ l, env.observation st.station_id = none) →
      nearest_loop env l acc = Except.ok none := by
  intro l
  induction l with
  | nil =>
    intro acc hwf hex
    obtain ⟨st, hst, _⟩ := hex
    cases hst
  | cons st rest ih =>
    intro acc hwf hex
    rw [nearest_loop]
    cases hobs : env.observation st.station_id with
    | none => rfl
    | some o =>
      cases o with
      | none =>
        dsimp only
        obtain ⟨u, hu, hun⟩ := hex
        rcases List.mem_cons.mp hu with rfl | hur
        · rw [hobs] at hun; cases hun
        · exact ih acc (fun v hv => hwf v (List.mem_cons_of_mem _ hv)) ⟨u, hur, hun⟩
      | some obs =>
        dsimp only
        cases hws : obs.windSpeed with
        | none => exact absurd hws (hwf st (List.mem_cons_self st rest) obs hobs)
        | some w =>
          dsimp only
          obtain ⟨u, hu, hun⟩ := hex
          rcases List.mem_cons.mp hu with rfl | hur
          · rw [hobs] at hun; cases hun
          · exact ih _ (fun v hv => hwf v (List.mem_cons_of_mem _ hv)) ⟨u, hur, hun⟩

/-- Claim C10: the per-station observation fetches of `get_nearest_stations`
share one error scope: a failing stations-list fetch yields `None`, and a
failing observation fetch for any of the up-to-four stations makes the
whole call yield `None` with no partial list (provided no station's
response carries a `null` `windSpeed`, which would instead raise an
uncaught `TypeError`); this path does not degrade per station. -/
theorem C10_nearest_stations_error_scope (env : NEnv) (latitude longitude : ℚ) :
    (env.stationsList latitude longitude = none →
      get_nearest_stations env latitude longitude = Except.ok none)
    ∧ (∀ feats, env.stationsList latitude longitude = some feats →
      (∀ st ∈ feats.take 4, ∀ obs, env.observation st.station_id = some (some obs) →
        obs.windSpeed ≠ none) →
      (∃ st ∈ feats.take 4, env.observation st.station_id = none) →
      get_nearest_stations env latitude longitude = Except.ok none) := by
  constructor
  · intro h
    unfold get_nearest_stations
    rw [h]
  · intro feats h hwf hex
    unfold get_nearest_stations
    rw [h]
    exact nearest_loop_abort env (feats.take 4) [] hwf hex

/-- A concrete environment for the C10 witness: one station is returned and
its observation fetch fails. -/
def c10WitnessEnv : NEnv :=
  { stationsList := fun _ _ => some [⟨"KAAA", "Alpha", 1, 2⟩]
    observation := fun _ => none }

/-- Witness for claim C10: the single station's observation fetch fails and
the whole call returns `None`. -/
theorem C10_nearest_stations_error_scope_witness :
    c10WitnessEnv.stationsList 0 0 = some [⟨"KAAA", "Alpha", 1, 2⟩]
    ∧ get_nearest_stations c10WitnessEnv 0 0 = Except.ok none :=
  ⟨rfl, (C10_nearest_stations_error_scope c10WitnessEnv 0 0).2 [⟨"KAAA", "Alpha", 1, 2⟩]
    rfl (fun st _ obs hobs => nomatch hobs) ⟨⟨"KAAA", "Alpha", 1, 2⟩, by simp, rfl⟩⟩
